import Mathlib

/-!
Shallow embedding of the sales backend (archivos `models.py`, `schemas.py`,
`crud.py`, `database.py`).

The relational store is modelled as explicit lists of rows plus per-table
autoincrement counters.  Monetary fields are `Int` (Python integers),
internal ids are `Nat` (SQLite rowids).  The opaque external identifier
(`uuid`) and the automatic timestamps (`created_at` / `modified_at`) are
managed metadata generated nondeterministically by the runtime and are not
part of the embedded state.

Fallible operations return `Except String _` (an `IntegrityError` raised by
the engine rolls the transaction back, so an `error` result leaves the store
unchanged at the call sites that run a transaction); operations that signal
"not found" by returning `None` in the source return `Option _` here.
-/

namespace Ventas

/-- Fila de la tabla `clientes` (clase `Cliente` de `models.py`). -/
structure Cliente where
  id : Nat
  nombre : String
  email : String
  rut : String
  deriving DecidableEq, Repr

/-- Fila de la tabla `productos` (clase `Producto` de `models.py`). -/
structure Producto where
  id : Nat
  nombre : String
  categoria : Option String
  precio : Int
  deriving DecidableEq, Repr

/-- Fila de la tabla `ventas` (clase `Venta` de `models.py`). -/
structure Venta where
  id : Nat
  cliente_id : Nat
  total : Int
  deriving DecidableEq, Repr

/-- Fila de la tabla `detalles_ventas` (clase `DetalleVenta` de `models.py`). -/
structure DetalleVenta where
  id : Nat
  producto_id : Nat
  venta_id : Nat
  precio : Int
  descuento : Int
  cantidad : Int
  deriving DecidableEq, Repr

/-- Estado completo del almacén relacional (`app.db`). -/
structure DB where
  clientes : List Cliente
  productos : List Producto
  ventas : List Venta
  detalles : List DetalleVenta
  nextClienteId : Nat
  nextProductoId : Nat
  nextVentaId : Nat
  nextDetalleId : Nat
  deriving DecidableEq, Repr

/-- Esquema `ClienteCreate` de `schemas.py`. -/
structure ClienteCreate where
  nombre : String
  email : String
  rut : String
  deriving DecidableEq, Repr

/-- Esquema `ClienteUpdate`: cada campo opcional; `none` = campo no enviado
(`exclude_unset` en `crud.py`). -/
structure ClienteUpdate where
  nombre : Option String
  email : Option String
  rut : Option String
  deriving DecidableEq, Repr

/-- Esquema `ProductoCreate` de `schemas.py`. -/
structure ProductoCreate where
  nombre : String
  categoria : Option String
  precio : Int
  deriving DecidableEq, Repr

/-- Esquema `ProductoUpdate`: `none` exterior = campo no enviado. -/
structure ProductoUpdate where
  nombre : Option String
  categoria : Option (Option String)
  precio : Option Int
  deriving DecidableEq, Repr

/-- Esquema `DetalleVentaCreate` (detalle anidado en la creación de venta). -/
structure DetalleVentaCreate where
  producto_id : Nat
  precio : Int
  descuento : Int
  cantidad : Int
  deriving DecidableEq, Repr

/-- Esquema `DetalleVentaCreateStandalone`: detalle para una venta existente. -/
structure DetalleVentaCreateStandalone where
  producto_id : Nat
  venta_id : Nat
  precio : Int
  descuento : Int
  cantidad : Int
  deriving DecidableEq, Repr

/-- Esquema `DetalleVentaUpdate`: `none` = campo no enviado. -/
structure DetalleVentaUpdate where
  precio : Option Int
  descuento : Option Int
  cantidad : Option Int
  deriving DecidableEq, Repr

/-- Esquema `VentaCreate`: cabecera más lote de detalles. -/
structure VentaCreate where
  cliente_id : Nat
  detalles : List DetalleVentaCreate
  deriving DecidableEq, Repr

/-- Esquema `VentaUpdate`: solo expone `cliente_id`. -/
structure VentaUpdate where
  cliente_id : Option Nat
  deriving DecidableEq, Repr

/-- Subtotal de un detalle: `(precio - descuento) * cantidad`. -/
def detalleSubtotal (d : DetalleVenta) : Int :=
  (d.precio - d.descuento) * d.cantidad

/-- Suma de subtotales de los detalles de la venta `vid` dentro de una lista. -/
def sumaDetallesL (ds : List DetalleVenta) (vid : Nat) : Int :=
  ((ds.filter (fun d => d.venta_id == vid)).map detalleSubtotal).sum

/-- Detalles actualmente asociados a la venta `vid`. -/
def ventaDetalles (db : DB) (vid : Nat) : List DetalleVenta :=
  db.detalles.filter (fun d => d.venta_id == vid)

-- -------------------- Clientes --------------------

/-- `crud.create_cliente`: inserta un cliente; las columnas `email` y `rut`
son `unique`, una colisión produce `IntegrityError`. -/
def create_cliente (db : DB) (data : ClienteCreate) : Except String (Cliente × DB) :=
  if db.clientes.any (fun c => c.email == data.email || c.rut == data.rut) then
    Except.error "UNIQUE constraint failed: clientes.email / clientes.rut"
  else
    let c : Cliente :=
      { id := db.nextClienteId, nombre := data.nombre, email := data.email, rut := data.rut }
    Except.ok (c, { db with
      clientes := db.clientes ++ [c]
      nextClienteId := db.nextClienteId + 1 })

/-- `crud.get_cliente`. -/
def get_cliente (db : DB) (cliente_id : Nat) : Option Cliente :=
  db.clientes.find? (fun c => c.id == cliente_id)

/-- Aplicación de los campos presentes de un `ClienteUpdate`
(el bucle `setattr` sobre `model_dump(exclude_unset=True)`). -/
def applyClienteUpdate (c : Cliente) (u : ClienteUpdate) : Cliente :=
  { c with
    nombre := u.nombre.getD c.nombre
    email := u.email.getD c.email
    rut := u.rut.getD c.rut }

/-- `crud.update_cliente`: `ok none` = no existe; `error` = violación de
unicidad al hacer `commit` (sin cambios persistidos). -/
def update_cliente (db : DB) (cliente_id : Nat) (u : ClienteUpdate) :
    Except String (Option (Cliente × DB)) :=
  match get_cliente db cliente_id with
  | none => Except.ok none
  | some c =>
    let c' := applyClienteUpdate c u
    if db.clientes.any (fun o => o.id != cliente_id && (o.email == c'.email || o.rut == c'.rut)) then
      Except.error "UNIQUE constraint failed: clientes.email / clientes.rut"
    else
      Except.ok (some (c', { db with
        clientes := db.clientes.map
          (fun o => if o.id == cliente_id then applyClienteUpdate o u else o) }))

/-- `crud.delete_cliente`: borra el cliente; la cascada `all, delete-orphan`
de `Cliente.ventas` borra sus ventas y, transitivamente (cascada de
`Venta.detalles`), los detalles de esas ventas. -/
def delete_cliente (db : DB) (cliente_id : Nat) : Bool × DB :=
  match get_cliente db cliente_id with
  | none => (false, db)
  | some _ =>
    (true, { db with
      clientes := db.clientes.filter (fun c => c.id != cliente_id)
      ventas := db.ventas.filter (fun v => v.cliente_id != cliente_id)
      detalles := db.detalles.filter (fun d =>
        (db.ventas.filter (fun v => v.cliente_id == cliente_id)).all
          (fun v => v.id != d.venta_id)) })

-- -------------------- Productos --------------------

/-- `crud.create_producto`. -/
def create_producto (db : DB) (data : ProductoCreate) : Producto × DB :=
  let p : Producto :=
    { id := db.nextProductoId, nombre := data.nombre,
      categoria := data.categoria, precio := data.precio }
  (p, { db with
    productos := db.productos ++ [p]
    nextProductoId := db.nextProductoId + 1 })

/-- `crud.get_producto`. -/
def get_producto (db : DB) (producto_id : Nat) : Option Producto :=
  db.productos.find? (fun p => p.id == producto_id)

/-- Aplicación de los campos presentes de un `ProductoUpdate`. -/
def applyProductoUpdate (p : Producto) (u : ProductoUpdate) : Producto :=
  { p with
    nombre := u.nombre.getD p.nombre
    categoria := u.categoria.getD p.categoria
    precio := u.precio.getD p.precio }

/-- `crud.update_producto`: `none` = no existe. -/
def update_producto (db : DB) (producto_id : Nat) (u : ProductoUpdate) :
    Option (Producto × DB) :=
  match get_producto db producto_id with
  | none => none
  | some p =>
    some (applyProductoUpdate p u, { db with
      productos := db.productos.map
        (fun o => if o.id == producto_id then applyProductoUpdate o u else o) })

/-- `crud.delete_producto`: la relación `Producto.detalles` no declara cascada
de borrado, así que al eliminar un producto referenciado el ORM intenta anular
`detalles_ventas.producto_id` (columna `NOT NULL`) y el `commit` falla con
`IntegrityError`; sin referencias, el borrado procede. -/
def delete_producto (db : DB) (producto_id : Nat) : Except String (Bool × DB) :=
  match get_producto db producto_id with
  | none => Except.ok (false, db)
  | some _ =>
    if db.detalles.any (fun d => d.producto_id == producto_id) then
      Except.error "NOT NULL constraint failed: detalles_ventas.producto_id"
    else
      Except.ok (true, { db with
        productos := db.productos.filter (fun p => p.id != producto_id) })

-- -------------------- Ventas --------------------

/-- Detalles creados en lote por `crud.create_venta`, con ids consecutivos a
partir de `nid` y todos apuntando a la venta `vid`. -/
def mkDetalles (nid vid : Nat) : List DetalleVentaCreate → List DetalleVenta
  | [] => []
  | det :: rest =>
    { id := nid, producto_id := det.producto_id, venta_id := vid,
      precio := det.precio, descuento := det.descuento,
      cantidad := det.cantidad } :: mkDetalles (nid + 1) vid rest

/-- `crud.create_venta`: crea la cabecera, acumula
`(precio - descuento) * cantidad` sobre el lote de detalles, inserta los
detalles y persiste el total.  `PRAGMA foreign_keys=ON` hace fallar el
`flush`/`commit` si `cliente_id` o algún `producto_id` no existe, y la
transacción se revierte sin estado parcial. -/
def create_venta (db : DB) (data : VentaCreate) : Except String (Venta × DB) :=
  if (get_cliente db data.cliente_id).isNone then
    Except.error "FOREIGN KEY constraint failed: ventas.cliente_id"
  else if data.detalles.any (fun det => (get_producto db det.producto_id).isNone) then
    Except.error "FOREIGN KEY constraint failed: detalles_ventas.producto_id"
  else
    let total := (data.detalles.map (fun det => (det.precio - det.descuento) * det.cantidad)).sum
    let venta : Venta := { id := db.nextVentaId, cliente_id := data.cliente_id, total := total }
    let nuevos := mkDetalles db.nextDetalleId db.nextVentaId data.detalles
    Except.ok (venta, { db with
      ventas := db.ventas ++ [venta]
      detalles := db.detalles ++ nuevos
      nextVentaId := db.nextVentaId + 1
      nextDetalleId := db.nextDetalleId + data.detalles.length })

/-- `crud.get_venta`. -/
def get_venta (db : DB) (venta_id : Nat) : Option Venta :=
  db.ventas.find? (fun v => v.id == venta_id)

/-- `crud.delete_venta`: la cascada de `Venta.detalles` elimina sus detalles. -/
def delete_venta (db : DB) (venta_id : Nat) : Bool × DB :=
  match get_venta db venta_id with
  | none => (false, db)
  | some _ =>
    (true, { db with
      ventas := db.ventas.filter (fun v => v.id != venta_id)
      detalles := db.detalles.filter (fun d => d.venta_id != venta_id) })

/-- Aplicación de los campos presentes de un `VentaUpdate` (solo `cliente_id`). -/
def applyVentaUpdate (v : Venta) (u : VentaUpdate) : Venta :=
  { v with cliente_id := u.cliente_id.getD v.cliente_id }

/-- `crud.update_venta`: actualización de cabecera; un `cliente_id` nuevo
inexistente viola la clave foránea en el `commit`. -/
def update_venta (db : DB) (venta_id : Nat) (u : VentaUpdate) :
    Except String (Option (Venta × DB)) :=
  match get_venta db venta_id with
  | none => Except.ok none
  | some v =>
    let v' := applyVentaUpdate v u
    if (get_cliente db v'.cliente_id).isNone then
      Except.error "FOREIGN KEY constraint failed: ventas.cliente_id"
    else
      Except.ok (some (v', { db with
        ventas := db.ventas.map
          (fun o => if o.id == venta_id then applyVentaUpdate o u else o) }))

-- -------------------- Detalles de venta --------------------

/-- `crud._recalcular_total_venta`: suma `(precio - descuento) * cantidad`
sobre los detalles actuales de la venta (`coalesce(..., 0)` sobre el conjunto
vacío) y sobreescribe `Venta.total`; si la venta no existe no hace nada. -/
def recalcular_total_venta (db : DB) (venta_id : Nat) : DB :=
  { db with
    ventas := db.ventas.map (fun v =>
      if v.id == venta_id then { v with total := sumaDetallesL db.detalles venta_id } else v) }

/-- `crud.create_detalle`: inserta el detalle y recalcula el total de su venta
dentro de la misma transacción; claves foráneas inexistentes hacen fallar el
`flush` sin estado parcial. -/
def create_detalle (db : DB) (data : DetalleVentaCreateStandalone) :
    Except String (DetalleVenta × DB) :=
  if (get_producto db data.producto_id).isNone then
    Except.error "FOREIGN KEY constraint failed: detalles_ventas.producto_id"
  else if (get_venta db data.venta_id).isNone then
    Except.error "FOREIGN KEY constraint failed: detalles_ventas.venta_id"
  else
    let d : DetalleVenta :=
      { id := db.nextDetalleId, producto_id := data.producto_id, venta_id := data.venta_id,
        precio := data.precio, descuento := data.descuento, cantidad := data.cantidad }
    let db1 := { db with
      detalles := db.detalles ++ [d]
      nextDetalleId := db.nextDetalleId + 1 }
    Except.ok (d, recalcular_total_venta db1 data.venta_id)

/-- `crud.get_detalle`. -/
def get_detalle (db : DB) (detalle_id : Nat) : Option DetalleVenta :=
  db.detalles.find? (fun d => d.id == detalle_id)

/-- Aplicación de los campos presentes de un `DetalleVentaUpdate`
(`venta_id` y `producto_id` no son actualizables). -/
def applyDetalleUpdate (d : DetalleVenta) (u : DetalleVentaUpdate) : DetalleVenta :=
  { d with
    precio := u.precio.getD d.precio
    descuento := u.descuento.getD d.descuento
    cantidad := u.cantidad.getD d.cantidad }

/-- `crud.update_detalle`: aplica los campos presentes y recalcula el total
de la venta del detalle en la misma transacción. -/
def update_detalle (db : DB) (detalle_id : Nat) (u : DetalleVentaUpdate) :
    Option (DetalleVenta × DB) :=
  match get_detalle db detalle_id with
  | none => none
  | some det =>
    let db1 := { db with
      detalles := db.detalles.map
        (fun o => if o.id == detalle_id then applyDetalleUpdate o u else o) }
    some (applyDetalleUpdate det u, recalcular_total_venta db1 det.venta_id)

/-- `crud.delete_detalle`: elimina el detalle y recalcula el total de su venta. -/
def delete_detalle (db : DB) (detalle_id : Nat) : Bool × DB :=
  match get_detalle db detalle_id with
  | none => (false, db)
  | some det =>
    let db1 := { db with detalles := db.detalles.filter (fun o => o.id != detalle_id) }
    (true, recalcular_total_venta db1 det.venta_id)

-- -------------------- Reportes --------------------

/-- Fila del reporte `productos_mas_vendidos` (esquema `ProductoMasVendido`). -/
structure ProductoRow where
  producto_id : Nat
  nombre : String
  total_cantidad : Int
  total_ingresos : Int
  deriving DecidableEq, Repr

/-- Fila del reporte `clientes_con_mas_ventas` (esquema `ClienteConMasVentas`). -/
structure ClienteRow where
  cliente_id : Nat
  nombre : String
  total_ventas : Nat
  total_monto : Int
  deriving DecidableEq, Repr

/-- `SUM(cantidad)` sobre los detalles del producto `pid`. -/
def totalCantidad (db : DB) (pid : Nat) : Int :=
  ((db.detalles.filter (fun d => d.producto_id == pid)).map (fun d => d.cantidad)).sum

/-- `SUM((precio - descuento) * cantidad)` sobre los detalles del producto `pid`. -/
def totalIngresos (db : DB) (pid : Nat) : Int :=
  ((db.detalles.filter (fun d => d.producto_id == pid)).map detalleSubtotal).sum

/-- Grupo del `GROUP BY producto_id` unido (`JOIN`) con `productos`. -/
def productoRow (db : DB) (pid : Nat) : Option ProductoRow :=
  match get_producto db pid with
  | none => none
  | some p =>
    some { producto_id := pid, nombre := p.nombre,
           total_cantidad := totalCantidad db pid, total_ingresos := totalIngresos db pid }

/-- Ventas del cliente `cid`. -/
def ventasDeCliente (db : DB) (cid : Nat) : List Venta :=
  db.ventas.filter (fun v => v.cliente_id == cid)

/-- Grupo del `GROUP BY cliente_id` unido con `clientes`: `COUNT(ventas.id)`
y `SUM(ventas.total)`. -/
def clienteRow (db : DB) (cid : Nat) : Option ClienteRow :=
  match get_cliente db cid with
  | none => none
  | some c =>
    some { cliente_id := cid, nombre := c.nombre,
           total_ventas := (ventasDeCliente db cid).length,
           total_monto := ((ventasDeCliente db cid).map (fun v => v.total)).sum }

/-- Claves de agrupación en orden de primera aparición, sin duplicados. -/
def dedupKeys : List Nat → List Nat
  | [] => []
  | x :: xs => x :: (dedupKeys xs).filter (fun y => y != x)

/-- Orden del reporte de productos: `ORDER BY SUM(cantidad) DESC`. -/
def ProductoRow.keyGE (a b : ProductoRow) : Prop :=
  b.total_cantidad ≤ a.total_cantidad

instance : DecidableRel ProductoRow.keyGE := fun a b =>
  inferInstanceAs (Decidable (b.total_cantidad ≤ a.total_cantidad))

instance : IsTotal ProductoRow ProductoRow.keyGE :=
  ⟨fun a b => le_total b.total_cantidad a.total_cantidad⟩

instance : IsTrans ProductoRow ProductoRow.keyGE :=
  ⟨fun _ _ _ h1 h2 => le_trans h2 h1⟩

/-- Orden del reporte de clientes: `ORDER BY COUNT(ventas.id) DESC`. -/
def ClienteRow.keyGE (a b : ClienteRow) : Prop :=
  b.total_ventas ≤ a.total_ventas

instance : DecidableRel ClienteRow.keyGE := fun a b =>
  inferInstanceAs (Decidable (b.total_ventas ≤ a.total_ventas))

instance : IsTotal ClienteRow ClienteRow.keyGE :=
  ⟨fun a b => Nat.le_total b.total_ventas a.total_ventas⟩

instance : IsTrans ClienteRow ClienteRow.keyGE :=
  ⟨fun _ _ _ h1 h2 => le_trans h2 h1⟩

/-- `crud.productos_mas_vendidos`: agrupa los detalles por producto, suma
cantidad e ingresos, ordena por cantidad total descendente y corta a `limit`. -/
def productos_mas_vendidos (db : DB) (limit : Nat) : List ProductoRow :=
  (List.insertionSort ProductoRow.keyGE
    ((dedupKeys (db.detalles.map (fun d => d.producto_id))).filterMap (productoRow db))).take limit

/-- `productos_mas_vendidos` con el `limit` por defecto (10). -/
def productos_mas_vendidos_default (db : DB) : List ProductoRow :=
  productos_mas_vendidos db 10

/-- `crud.clientes_con_mas_ventas`: agrupa las ventas por cliente, cuenta
ventas y suma totales almacenados, ordena por número de ventas descendente y
corta a `limit`. -/
def clientes_con_mas_ventas (db : DB) (limit : Nat) : List ClienteRow :=
  (List.insertionSort ClienteRow.keyGE
    ((dedupKeys (db.ventas.map (fun v => v.cliente_id))).filterMap (clienteRow db))).take limit

/-- `clientes_con_mas_ventas` con el `limit` por defecto (10). -/
def clientes_con_mas_ventas_default (db : DB) : List ClienteRow :=
  clientes_con_mas_ventas db 10

-- -------------------- Secuencias de operaciones sobre detalles --------------------

/-- Operaciones que pueden alterar el conjunto de detalles de una venta:
creación de la venta con su lote y las tres mutaciones de detalle. -/
inductive Op where
  | crearVenta (data : VentaCreate)
  | crearDetalle (data : DetalleVentaCreateStandalone)
  | actualizarDetalle (detalle_id : Nat) (u : DetalleVentaUpdate)
  | eliminarDetalle (detalle_id : Nat)
  deriving DecidableEq, Repr

/-- Ejecuta una operación como transacción completa: un resultado `error`
revierte y deja el almacén intacto; `none` (no encontrado) tampoco cambia nada. -/
def applyOp (db : DB) : Op → DB
  | Op.crearVenta data =>
    match create_venta db data with
    | Except.ok (_, db') => db'
    | Except.error _ => db
  | Op.crearDetalle data =>
    match create_detalle db data with
    | Except.ok (_, db') => db'
    | Except.error _ => db
  | Op.actualizarDetalle detalle_id u =>
    match update_detalle db detalle_id u with
    | some (_, db') => db'
    | none => db
  | Op.eliminarDetalle detalle_id => (delete_detalle db detalle_id).2

/-- Ejecuta una secuencia de operaciones. -/
def runOps (db : DB) : List Op → DB
  | [] => db
  | op :: ops => runOps (applyOp db op) ops

/-- Buena formación del almacén: ids de ventas y detalles únicos, ids por
debajo del contador autoincremental y clave foránea `venta_id` válida en cada
detalle (garantizada por `PRAGMA foreign_keys=ON`). -/
def WF (db : DB) : Prop :=
  (db.ventas.map (fun v => v.id)).Nodup ∧
  (db.detalles.map (fun d => d.id)).Nodup ∧
  (∀ i ∈ db.ventas.map (fun v => v.id), i < db.nextVentaId) ∧
  (∀ i ∈ db.detalles.map (fun d => d.id), i < db.nextDetalleId) ∧
  (∀ d ∈ db.detalles, d.venta_id ∈ db.ventas.map (fun v => v.id))

instance : DecidablePred WF := fun db => by unfold WF; infer_instance

/-- Invariante de consistencia: el `total` almacenado de cada venta coincide
con la suma de `(precio - descuento) * cantidad` sobre sus detalles actuales
(cero para el conjunto vacío). -/
def Inv (db : DB) : Prop :=
  ∀ v ∈ db.ventas, v.total = sumaDetallesL db.detalles v.id

instance : DecidablePred Inv := fun db => by unfold Inv; infer_instance

-- -------------------- Estados concretos de ejemplo --------------------

/-- Almacén de ejemplo: dos clientes, dos productos y una venta consistente
con un detalle (`(100 - 10) * 2 = 180`). -/
def dbW : DB where
  clientes := [{ id := 1, nombre := "Ana", email := "ana@mail.cl", rut := "1-9" },
               { id := 2, nombre := "Beto", email := "beto@mail.cl", rut := "2-7" }]
  productos := [{ id := 1, nombre := "Teclado", categoria := none, precio := 100 },
                { id := 2, nombre := "Mouse", categoria := some "acc", precio := 50 }]
  ventas := [{ id := 1, cliente_id := 1, total := 180 }]
  detalles := [{ id := 1, producto_id := 1, venta_id := 1, precio := 100, descuento := 10, cantidad := 2 }]
  nextClienteId := 3
  nextProductoId := 3
  nextVentaId := 2
  nextDetalleId := 2

/-- Secuencia de ejemplo: creación de venta con lote, alta, edición y baja
de detalles. -/
def opsC1 : List Op :=
  [Op.crearVenta { cliente_id := 2, detalles := [{ producto_id := 2, precio := 50, descuento := 0, cantidad := 3 }] },
   Op.crearDetalle { producto_id := 2, venta_id := 1, precio := 20, descuento := 5, cantidad := 2 },
   Op.actualizarDetalle 1 { precio := none, descuento := some 0, cantidad := some 4 },
   Op.eliminarDetalle 2]

/-- Lote de creación con un único detalle `precio=100, descuento=10, cantidad=2`. -/
def dataC2 : VentaCreate :=
  { cliente_id := 1, detalles := [{ producto_id := 1, precio := 100, descuento := 10, cantidad := 2 }] }

/-- Venta que produce `create_venta dbW dataC2`. -/
def vC2 : Venta := { id := 2, cliente_id := 1, total := 180 }

/-- Almacén que produce `create_venta dbW dataC2`. -/
def dbC2' : DB :=
  { dbW with
    ventas := dbW.ventas ++ [vC2]
    detalles := dbW.detalles ++ [{ id := 2, producto_id := 1, venta_id := 2, precio := 100, descuento := 10, cantidad := 2 }]
    nextVentaId := 3
    nextDetalleId := 3 }

/-- Detalles `{(P1, 5), (P1, 3), (P2, 10)}` del ejemplo del reporte de productos. -/
def dbC3 : DB where
  clientes := [{ id := 1, nombre := "Ana", email := "ana@mail.cl", rut := "1-9" }]
  productos := [{ id := 1, nombre := "P1", categoria := none, precio := 100 },
                { id := 2, nombre := "P2", categoria := none, precio := 50 }]
  ventas := [{ id := 1, cliente_id := 1, total := 1220 }]
  detalles := [{ id := 1, producto_id := 1, venta_id := 1, precio := 100, descuento := 10, cantidad := 5 },
               { id := 2, producto_id := 1, venta_id := 1, precio := 100, descuento := 10, cantidad := 3 },
               { id := 3, producto_id := 2, venta_id := 1, precio := 50, descuento := 0, cantidad := 10 }]
  nextClienteId := 2
  nextProductoId := 3
  nextVentaId := 2
  nextDetalleId := 4

/-- Fila esperada de P2 en el reporte sobre `dbC3`. -/
def rowP2 : ProductoRow :=
  { producto_id := 2, nombre := "P2", total_cantidad := 10, total_ingresos := 500 }

/-- Fila esperada de P1 en el reporte sobre `dbC3` (cantidad `5 + 3 = 8`). -/
def rowP1 : ProductoRow :=
  { producto_id := 1, nombre := "P1", total_cantidad := 8, total_ingresos := 720 }

/-- Dos clientes con 3 y 1 ventas para el reporte de clientes. -/
def dbC4 : DB where
  clientes := [{ id := 1, nombre := "Ana", email := "ana@mail.cl", rut := "1-9" },
               { id := 2, nombre := "Beto", email := "beto@mail.cl", rut := "2-7" }]
  productos := []
  ventas := [{ id := 1, cliente_id := 1, total := 10 },
             { id := 2, cliente_id := 1, total := 20 },
             { id := 3, cliente_id := 2, total := 5 },
             { id := 4, cliente_id := 1, total := 30 }]
  detalles := []
  nextClienteId := 3
  nextProductoId := 1
  nextVentaId := 5
  nextDetalleId := 1

/-- Fila esperada del cliente con 3 ventas sobre `dbC4`. -/
def rowAna : ClienteRow :=
  { cliente_id := 1, nombre := "Ana", total_ventas := 3, total_monto := 60 }

/-- Fila esperada del cliente con 1 venta sobre `dbC4`. -/
def rowBeto : ClienteRow :=
  { cliente_id := 2, nombre := "Beto", total_ventas := 1, total_monto := 5 }

/-- Actualización parcial de cliente que solo envía `nombre`. -/
def uC5 : ClienteUpdate := { nombre := some "Anita", email := none, rut := none }

/-- Cliente 1 de `dbW` antes de la actualización. -/
def cC5 : Cliente := { id := 1, nombre := "Ana", email := "ana@mail.cl", rut := "1-9" }

/-- Cliente 1 de `dbW` tras aplicar `uC5`. -/
def cC5' : Cliente := { id := 1, nombre := "Anita", email := "ana@mail.cl", rut := "1-9" }

/-- Almacén que produce `update_cliente dbW 1 uC5`. -/
def dbC5' : DB :=
  { dbW with clientes := [cC5', { id := 2, nombre := "Beto", email := "beto@mail.cl", rut := "2-7" }] }

/-- Cabecera de la venta 1 de `dbW` tras reasignarla al cliente 2. -/
def vC10' : Venta := { id := 1, cliente_id := 2, total := 180 }

/-- Almacén que produce `update_venta dbW 1 (cliente_id := 2)`. -/
def dbC10' : DB := { dbW with ventas := [vC10'] }

-- -------------------- Lemas auxiliares --------------------

theorem sumaDetallesL_append (l₁ l₂ : List DetalleVenta) (vid : Nat) :
    sumaDetallesL (l₁ ++ l₂) vid = sumaDetallesL l₁ vid + sumaDetallesL l₂ vid := by
  simp [sumaDetallesL, List.filter_append]

theorem sumaDetallesL_singleton_self (d : DetalleVenta) :
    sumaDetallesL [d] d.venta_id = detalleSubtotal d := by
  simp [sumaDetallesL]

theorem sumaDetallesL_singleton_other {d : DetalleVenta} {w : Nat} (hw : w ≠ d.venta_id) :
    sumaDetallesL [d] w = 0 := by
  simp [sumaDetallesL, List.filter_eq_nil_iff, hw, Ne.symm hw]

theorem applyDetalleUpdate_id (d : DetalleVenta) (u : DetalleVentaUpdate) :
    (applyDetalleUpdate d u).id = d.id := rfl

theorem applyDetalleUpdate_venta_id (d : DetalleVenta) (u : DetalleVentaUpdate) :
    (applyDetalleUpdate d u).venta_id = d.venta_id := rfl

theorem mem_mkDetalles {nid vid : Nat} {l : List DetalleVentaCreate} {d : DetalleVenta}
    (hd : d ∈ mkDetalles nid vid l) :
    d.venta_id = vid ∧ nid ≤ d.id ∧ d.id < nid + l.length := by
  induction l generalizing nid with
  | nil => simp [mkDetalles] at hd
  | cons det rest ih =>
    simp only [mkDetalles, List.mem_cons] at hd
    rcases hd with rfl | hd
    · refine ⟨rfl, Nat.le_refl _, ?_⟩
      simp
    · obtain ⟨h1, h2, h3⟩ := ih hd
      refine ⟨h1, by omega, by simp; omega⟩

theorem mkDetalles_map_id_nodup (nid vid : Nat) (l : List DetalleVentaCreate) :
    ((mkDetalles nid vid l).map (fun d => d.id)).Nodup := by
  induction l generalizing nid with
  | nil => simp [mkDetalles]
  | cons det rest ih =>
    simp only [mkDetalles, List.map_cons, List.nodup_cons]
    refine ⟨?_, ih (nid + 1)⟩
    intro hmem
    rw [List.mem_map] at hmem
    obtain ⟨d, hd, hid⟩ := hmem
    have := (mem_mkDetalles hd).2.1
    omega

theorem mkDetalles_map_subtotal (nid vid : Nat) (l : List DetalleVentaCreate) :
    (mkDetalles nid vid l).map detalleSubtotal
      = l.map (fun det => (det.precio - det.descuento) * det.cantidad) := by
  induction l generalizing nid with
  | nil => rfl
  | cons det rest ih => simp [mkDetalles, detalleSubtotal, ih]

theorem sumaDetallesL_mkDetalles_self (nid vid : Nat) (l : List DetalleVentaCreate) :
    sumaDetallesL (mkDetalles nid vid l) vid
      = (l.map (fun det => (det.precio - det.descuento) * det.cantidad)).sum := by
  rw [sumaDetallesL, List.filter_eq_self.mpr, mkDetalles_map_subtotal]
  intro d hd
  simp [(mem_mkDetalles hd).1]

theorem sumaDetallesL_mkDetalles_other {nid vid w : Nat} (l : List DetalleVentaCreate)
    (hw : w ≠ vid) : sumaDetallesL (mkDetalles nid vid l) w = 0 := by
  rw [sumaDetallesL, List.filter_eq_nil_iff.mpr]
  · rfl
  · intro d hd
    simp [(mem_mkDetalles hd).1, Ne.symm hw]

theorem get_venta_isSome_iff {db : DB} {vid : Nat} :
    (get_venta db vid).isSome ↔ vid ∈ db.ventas.map (fun v => v.id) := by
  simp only [get_venta, List.find?_isSome, List.mem_map, beq_iff_eq]

theorem get_detalle_spec {db : DB} {did : Nat} {det : DetalleVenta}
    (h : get_detalle db did = some det) : det ∈ db.detalles ∧ det.id = did := by
  refine ⟨List.mem_of_find?_eq_some h, ?_⟩
  have := List.find?_some h
  simpa using this

theorem get_venta_spec {db : DB} {vid : Nat} {v : Venta}
    (h : get_venta db vid = some v) : v ∈ db.ventas ∧ v.id = vid := by
  refine ⟨List.mem_of_find?_eq_some h, ?_⟩
  have := List.find?_some h
  simpa using this

theorem get_cliente_spec {db : DB} {cid : Nat} {c : Cliente}
    (h : get_cliente db cid = some c) : c ∈ db.clientes ∧ c.id = cid := by
  refine ⟨List.mem_of_find?_eq_some h, ?_⟩
  have := List.find?_some h
  simpa using this

theorem get_producto_spec {db : DB} {pid : Nat} {p : Producto}
    (h : get_producto db pid = some p) : p ∈ db.productos ∧ p.id = pid := by
  refine ⟨List.mem_of_find?_eq_some h, ?_⟩
  have := List.find?_some h
  simpa using this

theorem get_cliente_none_iff {db : DB} {cid : Nat} :
    get_cliente db cid = none ↔ ∀ c ∈ db.clientes, c.id ≠ cid := by
  simp [get_cliente, List.find?_eq_none]

theorem get_producto_none_iff {db : DB} {pid : Nat} :
    get_producto db pid = none ↔ ∀ p ∈ db.productos, p.id ≠ pid := by
  simp [get_producto, List.find?_eq_none]

theorem get_venta_none_iff {db : DB} {vid : Nat} :
    get_venta db vid = none ↔ ∀ v ∈ db.ventas, v.id ≠ vid := by
  simp [get_venta, List.find?_eq_none]

theorem get_detalle_none_iff {db : DB} {did : Nat} :
    get_detalle db did = none ↔ ∀ d ∈ db.detalles, d.id ≠ did := by
  simp [get_detalle, List.find?_eq_none]

theorem recalcular_detalles (db : DB) (vid : Nat) :
    (recalcular_total_venta db vid).detalles = db.detalles := rfl

theorem recalcular_ventas_map_id (db : DB) (vid : Nat) :
    (recalcular_total_venta db vid).ventas.map (fun v => v.id)
      = db.ventas.map (fun v => v.id) := by
  simp only [recalcular_total_venta, List.map_map]
  apply List.map_congr_left
  intro v _
  by_cases h : v.id = vid <;> simp [h, Function.comp]

theorem wf_recalcular {db : DB} (vid : Nat) (hwf : WF db) :
    WF (recalcular_total_venta db vid) := by
  obtain ⟨h1, h2, h3, h4, h5⟩ := hwf
  refine ⟨?_, h2, ?_, h4, ?_⟩
  · rw [recalcular_ventas_map_id]; exact h1
  · rw [recalcular_ventas_map_id]; exact h3
  · intro d hd
    rw [recalcular_ventas_map_id]
    exact h5 d hd

theorem inv_recalcular {db : DB} {vid : Nat}
    (h : ∀ v ∈ db.ventas, v.id ≠ vid → v.total = sumaDetallesL db.detalles v.id) :
    Inv (recalcular_total_venta db vid) := by
  intro v' hv'
  simp only [recalcular_total_venta, List.mem_map] at hv'
  obtain ⟨v, hv, hveq⟩ := hv'
  rw [recalcular_detalles]
  by_cases hid : v.id = vid
  · subst hveq
    simp [hid]
  · subst hveq
    simp only [beq_iff_eq, hid, if_false]
    exact h v hv hid

theorem detalles_update_filter (l : List DetalleVenta) (did : Nat) (u : DetalleVentaUpdate)
    (w : Nat) :
    (l.map (fun o => if o.id == did then applyDetalleUpdate o u else o)).filter
        (fun d => d.venta_id == w)
      = (l.filter (fun d => d.venta_id == w)).map
          (fun o => if o.id == did then applyDetalleUpdate o u else o) := by
  rw [List.filter_map]
  congr 1
  apply List.filter_congr
  intro x _
  by_cases hx : x.id = did <;> simp [Function.comp, hx, applyDetalleUpdate_venta_id]

theorem sumaDetallesL_update_other {db : DB} {did : Nat} {det : DetalleVenta}
    (hfind : get_detalle db did = some det)
    (hnd : (db.detalles.map (fun d => d.id)).Nodup)
    {w : Nat} (hw : w ≠ det.venta_id) (u : DetalleVentaUpdate) :
    sumaDetallesL (db.detalles.map (fun o => if o.id == did then applyDetalleUpdate o u else o)) w
      = sumaDetallesL db.detalles w := by
  obtain ⟨hmem, hdid⟩ := get_detalle_spec hfind
  unfold sumaDetallesL
  rw [detalles_update_filter]
  have hpt : ∀ x ∈ db.detalles.filter (fun d => d.venta_id == w),
      (if x.id == did then applyDetalleUpdate x u else x) = x := by
    intro x hx
    have hxmem : x ∈ db.detalles := List.mem_of_mem_filter hx
    have hxw : x.venta_id = w := by
      have := List.of_mem_filter hx
      simpa using this
    by_cases hxid : x.id = did
    · exfalso
      have hx_eq : x = det :=
        List.inj_on_of_nodup_map hnd hxmem hmem (by rw [hxid, hdid])
      rw [hx_eq] at hxw
      exact hw hxw.symm
    · simp [hxid]
  rw [List.map_congr_left hpt, List.map_id']

theorem sumaDetallesL_delete_other {db : DB} {did : Nat} {det : DetalleVenta}
    (hfind : get_detalle db did = some det)
    (hnd : (db.detalles.map (fun d => d.id)).Nodup)
    {w : Nat} (hw : w ≠ det.venta_id) :
    sumaDetallesL (db.detalles.filter (fun o => o.id != did)) w
      = sumaDetallesL db.detalles w := by
  obtain ⟨hmem, hdid⟩ := get_detalle_spec hfind
  unfold sumaDetallesL
  rw [List.filter_filter]
  have hflt : db.detalles.filter (fun a => (a.venta_id == w) && (a.id != did))
      = db.detalles.filter (fun d => d.venta_id == w) := by
    apply List.filter_congr
    intro x hxmem
    by_cases hxw : x.venta_id = w
    · have hxid : x.id ≠ did := by
        intro hxid
        have hx_eq : x = det :=
          List.inj_on_of_nodup_map hnd hxmem hmem (by rw [hxid, hdid])
        rw [hx_eq] at hxw
        exact hw hxw.symm
      simp [hxw, hxid]
    · simp [hxw]
  rw [hflt]

-- -------------------- Preservación por operación --------------------

theorem create_venta_ok {db : DB} {data : VentaCreate} {v : Venta} {db' : DB}
    (h : create_venta db data = Except.ok (v, db')) :
    v = { id := db.nextVentaId, cliente_id := data.cliente_id,
          total := (data.detalles.map
            (fun det => (det.precio - det.descuento) * det.cantidad)).sum }
    ∧ db' = { db with
        ventas := db.ventas ++ [v]
        detalles := db.detalles ++ mkDetalles db.nextDetalleId db.nextVentaId data.detalles
        nextVentaId := db.nextVentaId + 1
        nextDetalleId := db.nextDetalleId + data.detalles.length } := by
  unfold create_venta at h
  split at h
  · simp at h
  · split at h
    · simp at h
    · simp only [Except.ok.injEq, Prod.mk.injEq] at h
      obtain ⟨h1, h2⟩ := h
      subst h1
      exact ⟨rfl, h2.symm⟩

theorem wf_create_venta {db : DB} {data : VentaCreate} {v : Venta} {db' : DB}
    (h : create_venta db data = Except.ok (v, db')) (hwf : WF db) : WF db' := by
  obtain ⟨hv, hdb⟩ := create_venta_ok h
  obtain ⟨h1, h2, h3, h4, h5⟩ := hwf
  have hvid : v.id = db.nextVentaId := by rw [hv]
  subst hdb
  refine ⟨?_, ?_, ?_, ?_, ?_⟩
  · show ((db.ventas ++ [v]).map (fun x => x.id)).Nodup
    rw [List.map_append, List.nodup_append]
    refine ⟨h1, List.nodup_singleton _, ?_⟩
    intro a ha hb
    have := h3 a ha
    simp only [List.map_cons, List.map_nil, List.mem_singleton] at hb
    omega
  · show ((db.detalles ++ mkDetalles _ _ _).map (fun x => x.id)).Nodup
    rw [List.map_append, List.nodup_append]
    refine ⟨h2, mkDetalles_map_id_nodup _ _ _, ?_⟩
    intro a ha hb
    have ha' := h4 a ha
    rw [List.mem_map] at hb
    obtain ⟨d, hd, rfl⟩ := hb
    have := (mem_mkDetalles hd).2.1
    omega
  · intro i hi
    show i < db.nextVentaId + 1
    rw [List.map_append, List.mem_append] at hi
    rcases hi with hi | hi
    · have := h3 i hi; omega
    · simp only [List.map_cons, List.map_nil, List.mem_singleton] at hi
      omega
  · intro i hi
    show i < db.nextDetalleId + data.detalles.length
    rw [List.map_append, List.mem_append] at hi
    rcases hi with hi | hi
    · have := h4 i hi; omega
    · rw [List.mem_map] at hi
      obtain ⟨d, hd, rfl⟩ := hi
      exact (mem_mkDetalles hd).2.2
  · intro d hd
    rw [List.mem_append] at hd
    show d.venta_id ∈ (db.ventas ++ [v]).map (fun x => x.id)
    rw [List.map_append, List.mem_append]
    rcases hd with hd | hd
    · exact Or.inl (h5 d hd)
    · right
      have := (mem_mkDetalles hd).1
      simp [this, hvid]

theorem inv_create_venta {db : DB} {data : VentaCreate} {v : Venta} {db' : DB}
    (h : create_venta db data = Except.ok (v, db')) (hwf : WF db) (hinv : Inv db) :
    Inv db' := by
  obtain ⟨hv, hdb⟩ := create_venta_ok h
  obtain ⟨h1, h2, h3, h4, h5⟩ := hwf
  have hvid : v.id = db.nextVentaId := by rw [hv]
  have hvtot : v.total = (data.detalles.map
      (fun det => (det.precio - det.descuento) * det.cantidad)).sum := by rw [hv]
  subst hdb
  intro w hw
  show w.total = sumaDetallesL (db.detalles ++ mkDetalles db.nextDetalleId db.nextVentaId data.detalles) w.id
  simp only [List.mem_append, List.mem_singleton] at hw
  rcases hw with hw | rfl
  · have hlt : w.id < db.nextVentaId := h3 _ (List.mem_map_of_mem _ hw)
    rw [sumaDetallesL_append, sumaDetallesL_mkDetalles_other _ (by omega), add_zero]
    exact hinv w hw
  · have hzero : sumaDetallesL db.detalles db.nextVentaId = 0 := by
      rw [sumaDetallesL, List.filter_eq_nil_iff.mpr]
      · rfl
      · intro d hd
        have hvm := h5 d hd
        rw [List.mem_map] at hvm
        obtain ⟨vv, hvv, hvveq⟩ := hvm
        have := h3 _ (List.mem_map_of_mem _ hvv)
        simp only [beq_iff_eq]
        omega
    rw [sumaDetallesL_append, hvid, sumaDetallesL_mkDetalles_self, hzero, zero_add, hvtot]

theorem create_detalle_ok {db : DB} {data : DetalleVentaCreateStandalone}
    {d : DetalleVenta} {db' : DB}
    (h : create_detalle db data = Except.ok (d, db')) :
    d = { id := db.nextDetalleId, producto_id := data.producto_id, venta_id := data.venta_id,
          precio := data.precio, descuento := data.descuento, cantidad := data.cantidad }
    ∧ (get_venta db data.venta_id).isSome = true
    ∧ db' = recalcular_total_venta
        { db with detalles := db.detalles ++ [d], nextDetalleId := db.nextDetalleId + 1 }
        data.venta_id := by
  unfold create_detalle at h
  split at h
  · simp at h
  · split at h
    · simp at h
    · rename_i hp hv
      simp only [Except.ok.injEq, Prod.mk.injEq] at h
      obtain ⟨h1, h2⟩ := h
      subst h1
      refine ⟨rfl, ?_, h2.symm⟩
      simpa [Option.isNone_iff_eq_none, Option.isSome_iff_ne_none] using hv

theorem wf_inv_create_detalle {db : DB} {data : DetalleVentaCreateStandalone}
    {d : DetalleVenta} {db' : DB}
    (h : create_detalle db data = Except.ok (d, db'))
    (hwf : WF db) (hinv : Inv db) : WF db' ∧ Inv db' := by
  obtain ⟨hd, hvsome, hdb⟩ := create_detalle_ok h
  obtain ⟨h1, h2, h3, h4, h5⟩ := hwf
  have hdid : d.id = db.nextDetalleId := by rw [hd]
  have hdvid : d.venta_id = data.venta_id := by rw [hd]
  subst hdb
  have hwf1 : WF { db with detalles := db.detalles ++ [d], nextDetalleId := db.nextDetalleId + 1 } := by
    refine ⟨h1, ?_, h3, ?_, ?_⟩
    · show ((db.detalles ++ [d]).map (fun x => x.id)).Nodup
      rw [List.map_append, List.nodup_append]
      refine ⟨h2, List.nodup_singleton _, ?_⟩
      intro a ha hb
      have := h4 a ha
      simp only [List.map_cons, List.map_nil, List.mem_singleton] at hb
      omega
    · intro i hi
      show i < db.nextDetalleId + 1
      rw [List.map_append, List.mem_append] at hi
      rcases hi with hi | hi
      · have := h4 i hi; omega
      · simp only [List.map_cons, List.map_nil, List.mem_singleton] at hi
        omega
    · intro x hx
      rw [List.mem_append] at hx
      rcases hx with hx | hx
      · exact h5 x hx
      · rw [List.mem_singleton] at hx
        subst hx
        rw [hdvid]
        exact get_venta_isSome_iff.mp hvsome
  refine ⟨wf_recalcular _ hwf1, inv_recalcular ?_⟩
  intro v hv hne
  show v.total = sumaDetallesL (db.detalles ++ [d]) v.id
  rw [sumaDetallesL_append, sumaDetallesL_singleton_other (by rw [hdvid]; exact hne), add_zero]
  exact hinv v hv

theorem update_detalle_some {db : DB} {did : Nat} {u : DetalleVentaUpdate}
    {d' : DetalleVenta} {db' : DB}
    (h : update_detalle db did u = some (d', db')) :
    ∃ det, get_detalle db did = some det ∧ d' = applyDetalleUpdate det u ∧
      db' = recalcular_total_venta
        { db with detalles := db.detalles.map (fun o => if o.id == did then applyDetalleUpdate o u else o) }
        det.venta_id := by
  unfold update_detalle at h
  cases hf : get_detalle db did with
  | none => rw [hf] at h; simp at h
  | some det =>
    rw [hf] at h
    simp only [Option.some.injEq, Prod.mk.injEq] at h
    obtain ⟨h1, h2⟩ := h
    exact ⟨det, rfl, h1.symm, h2.symm⟩

theorem wf_inv_update_detalle {db : DB} {did : Nat} {u : DetalleVentaUpdate}
    {d' : DetalleVenta} {db' : DB}
    (h : update_detalle db did u = some (d', db'))
    (hwf : WF db) (hinv : Inv db) : WF db' ∧ Inv db' := by
  obtain ⟨det, hf, hd', hdb⟩ := update_detalle_some h
  obtain ⟨h1, h2, h3, h4, h5⟩ := hwf
  obtain ⟨hmem, hdid⟩ := get_detalle_spec hf
  subst hdb
  have hids : ((db.detalles.map
        (fun o => if o.id == did then applyDetalleUpdate o u else o)).map (fun x => x.id))
      = db.detalles.map (fun x => x.id) := by
    rw [List.map_map]
    apply List.map_congr_left
    intro x _
    by_cases hx : x.id = did <;> simp [Function.comp, hx, applyDetalleUpdate_id]
  have hwf1 : WF { db with detalles := db.detalles.map (fun o => if o.id == did then applyDetalleUpdate o u else o) } := by
    refine ⟨h1, ?_, h3, ?_, ?_⟩
    · show ((db.detalles.map (fun o => if o.id == did then applyDetalleUpdate o u else o)).map (fun x => x.id)).Nodup
      rw [hids]; exact h2
    · intro i hi
      rw [hids] at hi
      exact h4 i hi
    · intro x hx
      rw [List.mem_map] at hx
      obtain ⟨o, ho, rfl⟩ := hx
      have hov : (if o.id == did then applyDetalleUpdate o u else o).venta_id = o.venta_id := by
        by_cases hx : o.id = did <;> simp [hx, applyDetalleUpdate_venta_id]
      rw [hov]
      exact h5 o ho
  refine ⟨wf_recalcular _ hwf1, inv_recalcular ?_⟩
  intro v hv hne
  show v.total = sumaDetallesL (db.detalles.map
      (fun o => if o.id == did then applyDetalleUpdate o u else o)) v.id
  rw [sumaDetallesL_update_other hf h2 hne]
  exact hinv v hv

theorem wf_inv_delete_detalle (db : DB) (did : Nat)
    (hwf : WF db) (hinv : Inv db) :
    WF (delete_detalle db did).2 ∧ Inv (delete_detalle db did).2 := by
  unfold delete_detalle
  cases hf : get_detalle db did with
  | none => exact ⟨hwf, hinv⟩
  | some det =>
    obtain ⟨h1, h2, h3, h4, h5⟩ := hwf
    have hwf1 : WF { db with detalles := db.detalles.filter (fun o => o.id != did) } := by
      refine ⟨h1, ?_, h3, ?_, ?_⟩
      · show ((db.detalles.filter _).map (fun x => x.id)).Nodup
        exact ((List.filter_sublist db.detalles).map (fun x => x.id)).nodup h2
      · intro i hi
        rw [List.mem_map] at hi
        obtain ⟨o, ho, rfl⟩ := hi
        exact h4 _ (List.mem_map_of_mem _ (List.mem_of_mem_filter ho))
      · intro x hx
        exact h5 x (List.mem_of_mem_filter hx)
    refine ⟨wf_recalcular _ hwf1, inv_recalcular ?_⟩
    intro v hv hne
    show v.total = sumaDetallesL (db.detalles.filter (fun o => o.id != did)) v.id
    rw [sumaDetallesL_delete_other hf h2 hne]
    exact hinv v hv

theorem wf_inv_applyOp (db : DB) (op : Op) (hwf : WF db) (hinv : Inv db) :
    WF (applyOp db op) ∧ Inv (applyOp db op) := by
  cases op with
  | crearVenta data =>
    simp only [applyOp]
    cases h : create_venta db data with
    | ok p =>
      obtain ⟨v, db'⟩ := p
      exact ⟨wf_create_venta h hwf, inv_create_venta h hwf hinv⟩
    | error e => exact ⟨hwf, hinv⟩
  | crearDetalle data =>
    simp only [applyOp]
    cases h : create_detalle db data with
    | ok p =>
      obtain ⟨d, db'⟩ := p
      exact wf_inv_create_detalle h hwf hinv
    | error e => exact ⟨hwf, hinv⟩
  | actualizarDetalle did u =>
    simp only [applyOp]
    cases h : update_detalle db did u with
    | some p =>
      obtain ⟨d', db'⟩ := p
      exact wf_inv_update_detalle h hwf hinv
    | none => exact ⟨hwf, hinv⟩
  | eliminarDetalle did =>
    exact wf_inv_delete_detalle db did hwf hinv

theorem wf_inv_runOps (db : DB) (ops : List Op) (hwf : WF db) (hinv : Inv db) :
    WF (runOps db ops) ∧ Inv (runOps db ops) := by
  induction ops generalizing db with
  | nil => exact ⟨hwf, hinv⟩
  | cons op ops ih =>
    obtain ⟨hwf', hinv'⟩ := wf_inv_applyOp db op hwf hinv
    exact ih _ hwf' hinv'

-- -------------------- Lemas de los reportes --------------------

theorem productos_mas_vendidos_length_le (db : DB) (lim : Nat) :
    (productos_mas_vendidos db lim).length ≤ lim := by
  unfold productos_mas_vendidos
  rw [List.length_take]
  exact Nat.min_le_left _ _

theorem productos_mas_vendidos_sorted (db : DB) (lim : Nat) :
    List.Pairwise ProductoRow.keyGE (productos_mas_vendidos db lim) :=
  List.Pairwise.sublist (List.take_sublist _ _)
    (List.sorted_insertionSort ProductoRow.keyGE _)

theorem mem_productos_mas_vendidos {db : DB} {lim : Nat} {r : ProductoRow}
    (hr : r ∈ productos_mas_vendidos db lim) :
    r.total_cantidad = totalCantidad db r.producto_id ∧
    r.total_ingresos = totalIngresos db r.producto_id ∧
    ∃ p ∈ db.productos, p.id = r.producto_id ∧ p.nombre = r.nombre := by
  unfold productos_mas_vendidos at hr
  have hr1 := List.mem_of_mem_take hr
  have hr2 := (List.perm_insertionSort ProductoRow.keyGE _).mem_iff.mp hr1
  rw [List.mem_filterMap] at hr2
  obtain ⟨pid, _, hrow⟩ := hr2
  unfold productoRow at hrow
  cases hp : get_producto db pid with
  | none => rw [hp] at hrow; simp at hrow
  | some p =>
    rw [hp] at hrow
    simp only [Option.some.injEq] at hrow
    obtain ⟨hpm, hpeq⟩ := get_producto_spec hp
    subst hrow
    exact ⟨rfl, rfl, p, hpm, hpeq, rfl⟩

theorem clientes_con_mas_ventas_length_le (db : DB) (lim : Nat) :
    (clientes_con_mas_ventas db lim).length ≤ lim := by
  unfold clientes_con_mas_ventas
  rw [List.length_take]
  exact Nat.min_le_left _ _

theorem clientes_con_mas_ventas_sorted (db : DB) (lim : Nat) :
    List.Pairwise ClienteRow.keyGE (clientes_con_mas_ventas db lim) :=
  List.Pairwise.sublist (List.take_sublist _ _)
    (List.sorted_insertionSort ClienteRow.keyGE _)

theorem mem_clientes_con_mas_ventas {db : DB} {lim : Nat} {r : ClienteRow}
    (hr : r ∈ clientes_con_mas_ventas db lim) :
    r.total_ventas = (ventasDeCliente db r.cliente_id).length ∧
    r.total_monto = ((ventasDeCliente db r.cliente_id).map (fun v => v.total)).sum ∧
    ∃ c ∈ db.clientes, c.id = r.cliente_id ∧ c.nombre = r.nombre := by
  unfold clientes_con_mas_ventas at hr
  have hr1 := List.mem_of_mem_take hr
  have hr2 := (List.perm_insertionSort ClienteRow.keyGE _).mem_iff.mp hr1
  rw [List.mem_filterMap] at hr2
  obtain ⟨cid, _, hrow⟩ := hr2
  unfold clienteRow at hrow
  cases hc : get_cliente db cid with
  | none => rw [hc] at hrow; simp at hrow
  | some c =>
    rw [hc] at hrow
    simp only [Option.some.injEq] at hrow
    obtain ⟨hcm, hceq⟩ := get_cliente_spec hc
    subst hrow
    exact ⟨rfl, rfl, c, hcm, hceq, rfl⟩

-- -------------------- Teoremas de las afirmaciones --------------------

/-- C1: para toda venta, tras cualquier secuencia de operaciones de creación,
edición y borrado de detalles (incluida la creación de la venta con su lote),
partiendo de un almacén bien formado que cumple el invariante, el campo
`total` almacenado de cada venta es exactamente la suma de
`(precio - descuento) * cantidad` sobre sus detalles actuales, con 0 para el
conjunto vacío de detalles. -/
theorem C1_sale_total_invariant (db : DB) (ops : List Op)
    (hwf : WF db) (hinv : Inv db) : Inv (runOps db ops) :=
  (wf_inv_runOps db ops hwf hinv).2

/-- Testigo de C1 sobre un almacén y una secuencia concretos. -/
theorem C1_sale_total_invariant_witness :
    WF dbW ∧ Inv dbW ∧ Inv (runOps dbW opsC1) :=
  ⟨by decide, by decide, C1_sale_total_invariant dbW opsC1 (by decide) (by decide)⟩

/-- C2: `create_venta` calcula el total una sola vez a partir del lote
completo de detalles con la fórmula `(precio - descuento) * cantidad`; en
particular un lote con un único detalle `precio=100, descuento=10,
cantidad=2` produce una venta con `total = 180`. -/
theorem C2_create_venta_batch_total :
    (∀ db data v db', create_venta db data = Except.ok (v, db') →
      v.total = (data.detalles.map (fun det => (det.precio - det.descuento) * det.cantidad)).sum) ∧
    (create_venta dbW dataC2 = Except.ok (vC2, dbC2') ∧ vC2.total = 180) := by
  refine ⟨?_, rfl, rfl⟩
  intro db data v db' h
  rw [(create_venta_ok h).1]

/-- Testigo de C2: la parte universal aplicada al lote concreto. -/
theorem C2_create_venta_batch_total_witness :
    vC2.total = (dataC2.detalles.map (fun det => (det.precio - det.descuento) * det.cantidad)).sum
    ∧ vC2.total = 180 :=
  ⟨C2_create_venta_batch_total.1 dbW dataC2 vC2 dbC2' rfl, rfl⟩

/-- C3: el reporte de productos agrupa todos los detalles por producto,
calcula `total_cantidad` como suma de `cantidad` y `total_ingresos` como suma
de `(precio - descuento) * cantidad`, ordena por `total_cantidad`
descendente y devuelve a lo sumo `limit` filas (10 por defecto); con
detalles `(P1, 5), (P1, 3), (P2, 10)` y `limit ≥ 2`, P2 precede a P1 y
`total_cantidad` de P1 es 8. -/
theorem C3_top_products_report :
    (∀ db lim, (productos_mas_vendidos db lim).length ≤ lim) ∧
    (∀ db lim, List.Pairwise
      (fun a b : ProductoRow => b.total_cantidad ≤ a.total_cantidad)
      (productos_mas_vendidos db lim)) ∧
    (∀ db lim r, r ∈ productos_mas_vendidos db lim →
      r.total_cantidad = totalCantidad db r.producto_id ∧
      r.total_ingresos = totalIngresos db r.producto_id ∧
      ∃ p ∈ db.productos, p.id = r.producto_id ∧ p.nombre = r.nombre) ∧
    (∀ lim, 2 ≤ lim → productos_mas_vendidos dbC3 lim = [rowP2, rowP1]) ∧
    rowP1.total_cantidad = 8 ∧
    (∀ db, productos_mas_vendidos_default db = productos_mas_vendidos db 10) := by
  refine ⟨productos_mas_vendidos_length_le, productos_mas_vendidos_sorted, ?_, ?_, rfl,
    fun db => rfl⟩
  · intro db lim r hr
    exact mem_productos_mas_vendidos hr
  · intro lim hlim
    have hsort : List.insertionSort ProductoRow.keyGE
        ((dedupKeys (dbC3.detalles.map (fun d => d.producto_id))).filterMap (productoRow dbC3))
        = [rowP2, rowP1] := by decide
    unfold productos_mas_vendidos
    rw [hsort]
    exact List.take_of_length_le (by simpa using hlim)

/-- Testigo de C3: las partes condicionales aplicadas a `dbC3`. -/
theorem C3_top_products_report_witness :
    (rowP2 ∈ productos_mas_vendidos dbC3 2 ∧
      rowP2.total_cantidad = totalCantidad dbC3 rowP2.producto_id) ∧
    (2 ≤ 2 ∧ productos_mas_vendidos dbC3 2 = [rowP2, rowP1]) :=
  ⟨⟨by decide, (C3_top_products_report.2.2.1 dbC3 2 rowP2 (by decide)).1⟩,
   ⟨by decide, C3_top_products_report.2.2.2.1 2 (by decide)⟩⟩

/-- C4: el reporte de clientes agrupa las ventas por cliente, calcula
`total_ventas` como número de ventas y `total_monto` como suma de los
totales almacenados, ordena por número de ventas descendente y devuelve a lo
sumo `limit` filas (10 por defecto); con dos clientes de 3 y 1 ventas, el de
3 ventas queda primero. -/
theorem C4_top_customers_report :
    (∀ db lim, (clientes_con_mas_ventas db lim).length ≤ lim) ∧
    (∀ db lim, List.Pairwise
      (fun a b : ClienteRow => b.total_ventas ≤ a.total_ventas)
      (clientes_con_mas_ventas db lim)) ∧
    (∀ db lim r, r ∈ clientes_con_mas_ventas db lim →
      r.total_ventas = (ventasDeCliente db r.cliente_id).length ∧
      r.total_monto = ((ventasDeCliente db r.cliente_id).map (fun v => v.total)).sum ∧
      ∃ c ∈ db.clientes, c.id = r.cliente_id ∧ c.nombre = r.nombre) ∧
    (∀ lim, 2 ≤ lim → clientes_con_mas_ventas dbC4 lim = [rowAna, rowBeto]) ∧
    rowAna.total_ventas = 3 ∧ rowBeto.total_ventas = 1 ∧
    (∀ db, clientes_con_mas_ventas_default db = clientes_con_mas_ventas db 10) := by
  refine ⟨clientes_con_mas_ventas_length_le, clientes_con_mas_ventas_sorted, ?_, ?_, rfl, rfl,
    fun db => rfl⟩
  · intro db lim r hr
    exact mem_clientes_con_mas_ventas hr
  · intro lim hlim
    have hsort : List.insertionSort ClienteRow.keyGE
        ((dedupKeys (dbC4.ventas.map (fun v => v.cliente_id))).filterMap (clienteRow dbC4))
        = [rowAna, rowBeto] := by decide
    unfold clientes_con_mas_ventas
    rw [hsort]
    exact List.take_of_length_le (by simpa using hlim)

/-- Testigo de C4: las partes condicionales aplicadas a `dbC4`. -/
theorem C4_top_customers_report_witness :
    (rowAna ∈ clientes_con_mas_ventas dbC4 2 ∧
      rowAna.total_ventas = (ventasDeCliente dbC4 rowAna.cliente_id).length) ∧
    (2 ≤ 2 ∧ clientes_con_mas_ventas dbC4 2 = [rowAna, rowBeto]) :=
  ⟨⟨by decide, (C4_top_customers_report.2.2.1 dbC4 2 rowAna (by decide)).1⟩,
   ⟨by decide, C4_top_customers_report.2.2.2.1 2 (by decide)⟩⟩

/-- C5: en las cuatro entidades, la actualización parcial de un registro
existente deja cada campo no enviado con su valor anterior, cambia solo los
campos enviados, y no altera los registros de las demás tablas de datos ni
los demás registros de la misma tabla. -/
theorem C5_partial_update_frame :
    (∀ db cid u c c' db', get_cliente db cid = some c →
      update_cliente db cid u = Except.ok (some (c', db')) →
      c'.id = c.id ∧ c'.nombre = u.nombre.getD c.nombre ∧ c'.email = u.email.getD c.email ∧
      c'.rut = u.rut.getD c.rut ∧ db'.productos = db.productos ∧ db'.ventas = db.ventas ∧
      db'.detalles = db.detalles ∧ ∀ o ∈ db.clientes, o.id ≠ cid → o ∈ db'.clientes) ∧
    (∀ db pid u p p' db', get_producto db pid = some p →
      update_producto db pid u = some (p', db') →
      p'.id = p.id ∧ p'.nombre = u.nombre.getD p.nombre ∧
      p'.categoria = u.categoria.getD p.categoria ∧ p'.precio = u.precio.getD p.precio ∧
      db'.clientes = db.clientes ∧ db'.ventas = db.ventas ∧ db'.detalles = db.detalles ∧
      ∀ o ∈ db.productos, o.id ≠ pid → o ∈ db'.productos) ∧
    (∀ db vid u v v' db', get_venta db vid = some v →
      update_venta db vid u = Except.ok (some (v', db')) →
      v'.id = v.id ∧ v'.total = v.total ∧ v'.cliente_id = u.cliente_id.getD v.cliente_id ∧
      db'.clientes = db.clientes ∧ db'.productos = db.productos ∧ db'.detalles = db.detalles ∧
      ∀ o ∈ db.ventas, o.id ≠ vid → o ∈ db'.ventas) ∧
    (∀ db did u d d' db', get_detalle db did = some d →
      update_detalle db did u = some (d', db') →
      d'.id = d.id ∧ d'.producto_id = d.producto_id ∧ d'.venta_id = d.venta_id ∧
      d'.precio = u.precio.getD d.precio ∧ d'.descuento = u.descuento.getD d.descuento ∧
      d'.cantidad = u.cantidad.getD d.cantidad ∧ db'.clientes = db.clientes ∧
      db'.productos = db.productos ∧
      ∀ o ∈ db.detalles, o.id ≠ did → o ∈ db'.detalles) := by
  refine ⟨?_, ?_, ?_, ?_⟩
  · intro db cid u c c' db' hget h
    simp only [update_cliente, hget] at h
    split at h
    · simp at h
    · simp only [Except.ok.injEq, Option.some.injEq, Prod.mk.injEq] at h
      obtain ⟨hc', hdb⟩ := h
      subst hc'
      subst hdb
      refine ⟨rfl, rfl, rfl, rfl, rfl, rfl, rfl, ?_⟩
      intro o ho hne
      have hmm := List.mem_map_of_mem
        (fun o => if o.id == cid then applyClienteUpdate o u else o) ho
      simpa [hne] using hmm
  · intro db pid u p p' db' hget h
    simp only [update_producto, hget, Option.some.injEq, Prod.mk.injEq] at h
    obtain ⟨hp', hdb⟩ := h
    subst hp'
    subst hdb
    refine ⟨rfl, rfl, rfl, rfl, rfl, rfl, rfl, ?_⟩
    intro o ho hne
    have hmm := List.mem_map_of_mem
      (fun o => if o.id == pid then applyProductoUpdate o u else o) ho
    simpa [hne] using hmm
  · intro db vid u v v' db' hget h
    simp only [update_venta, hget] at h
    split at h
    · simp at h
    · simp only [Except.ok.injEq, Option.some.injEq, Prod.mk.injEq] at h
      obtain ⟨hv', hdb⟩ := h
      subst hv'
      subst hdb
      refine ⟨rfl, rfl, rfl, rfl, rfl, rfl, ?_⟩
      intro o ho hne
      have hmm := List.mem_map_of_mem
        (fun o => if o.id == vid then applyVentaUpdate o u else o) ho
      simpa [hne] using hmm
  · intro db did u d d' db' hget h
    simp only [update_detalle, hget, Option.some.injEq, Prod.mk.injEq] at h
    obtain ⟨hd', hdb⟩ := h
    subst hd'
    subst hdb
    refine ⟨rfl, rfl, rfl, rfl, rfl, rfl, rfl, rfl, ?_⟩
    intro o ho hne
    show o ∈ (db.detalles.map (fun o => if o.id == did then applyDetalleUpdate o u else o))
    have hmm := List.mem_map_of_mem
      (fun o => if o.id == did then applyDetalleUpdate o u else o) ho
    simpa [hne] using hmm

/-- Testigo de C5: actualización de cliente que solo envía `nombre`. -/
theorem C5_partial_update_frame_witness :
    cC5'.id = cC5.id ∧ cC5'.nombre = uC5.nombre.getD cC5.nombre ∧
    cC5'.email = uC5.email.getD cC5.email ∧ cC5'.rut = uC5.rut.getD cC5.rut := by
  have h := C5_partial_update_frame.1 dbW 1 uC5 cC5 cC5' dbC5' rfl rfl
  exact ⟨h.1, h.2.1, h.2.2.1, h.2.2.2.1⟩

/-- C6 (contraejemplo a la versión literal): en `dbW` el producto 1 existe,
pero al estar referenciado por un detalle su borrado no informa éxito sino
que falla con un error de restricción. -/
theorem C6_delete_referenced_product_counterexample :
    (∃ p ∈ dbW.productos, p.id = 1) ∧ (∃ d ∈ dbW.detalles, d.producto_id = 1) ∧
    delete_producto dbW 1
      = Except.error "NOT NULL constraint failed: detalles_ventas.producto_id" :=
  ⟨by decide, by decide, rfl⟩

/-- C6 (enmendada): el borrado indica si el registro existía: para clientes,
ventas y detalles, borrar un id existente lo elimina e informa éxito y un id
inexistente devuelve `false` sin tocar el almacén; para productos, un id
inexistente devuelve `false` sin tocar el almacén y uno existente se elimina
con éxito salvo que esté referenciado por algún detalle, caso en el que la
operación falla con un error de restricción. -/
theorem C6_delete_not_found_indication :
    (∀ db cid, ((delete_cliente db cid).1 = true ↔ ∃ c ∈ db.clientes, c.id = cid) ∧
      ((¬ ∃ c ∈ db.clientes, c.id = cid) → delete_cliente db cid = (false, db)) ∧
      ((delete_cliente db cid).1 = true → ∀ x ∈ (delete_cliente db cid).2.clientes, x.id ≠ cid)) ∧
    (∀ db vid, ((delete_venta db vid).1 = true ↔ ∃ v ∈ db.ventas, v.id = vid) ∧
      ((¬ ∃ v ∈ db.ventas, v.id = vid) → delete_venta db vid = (false, db)) ∧
      ((delete_venta db vid).1 = true → ∀ x ∈ (delete_venta db vid).2.ventas, x.id ≠ vid)) ∧
    (∀ db did, ((delete_detalle db did).1 = true ↔ ∃ d ∈ db.detalles, d.id = did) ∧
      ((¬ ∃ d ∈ db.detalles, d.id = did) → delete_detalle db did = (false, db)) ∧
      ((delete_detalle db did).1 = true →
        ∀ x ∈ (delete_detalle db did).2.detalles, x.id ≠ did)) ∧
    (∀ db pid, ((¬ ∃ p ∈ db.productos, p.id = pid) →
        delete_producto db pid = Except.ok (false, db)) ∧
      ((∃ p ∈ db.productos, p.id = pid) → (∀ d ∈ db.detalles, d.producto_id ≠ pid) →
        ∃ db', delete_producto db pid = Except.ok (true, db') ∧
          ∀ x ∈ db'.productos, x.id ≠ pid) ∧
      ((∃ p ∈ db.productos, p.id = pid) → (∃ d ∈ db.detalles, d.producto_id = pid) →
        delete_producto db pid
          = Except.error "NOT NULL constraint failed: detalles_ventas.producto_id")) := by
  refine ⟨?_, ?_, ?_, ?_⟩
  · intro db cid
    unfold delete_cliente
    cases hf : get_cliente db cid with
    | none =>
      rw [get_cliente_none_iff] at hf
      refine ⟨⟨fun hab => absurd hab (by simp), ?_⟩, fun _ => rfl, by simp⟩
      rintro ⟨c, hc, rfl⟩
      exact (hf c hc rfl).elim
    | some c =>
      obtain ⟨hcm, hceq⟩ := get_cliente_spec hf
      refine ⟨⟨fun _ => ⟨c, hcm, hceq⟩, fun _ => rfl⟩, ?_, ?_⟩
      · intro hab
        exact absurd ⟨c, hcm, hceq⟩ hab
      · intro _ x hx
        have := (List.mem_filter.mp hx).2
        simpa using this
  · intro db vid
    unfold delete_venta
    cases hf : get_venta db vid with
    | none =>
      rw [get_venta_none_iff] at hf
      refine ⟨⟨fun hab => absurd hab (by simp), ?_⟩, fun _ => rfl, by simp⟩
      rintro ⟨v, hv, rfl⟩
      exact (hf v hv rfl).elim
    | some v =>
      obtain ⟨hvm, hveq⟩ := get_venta_spec hf
      refine ⟨⟨fun _ => ⟨v, hvm, hveq⟩, fun _ => rfl⟩, ?_, ?_⟩
      · intro hab
        exact absurd ⟨v, hvm, hveq⟩ hab
      · intro _ x hx
        have := (List.mem_filter.mp hx).2
        simpa using this
  · intro db did
    unfold delete_detalle
    cases hf : get_detalle db did with
    | none =>
      rw [get_detalle_none_iff] at hf
      refine ⟨⟨fun hab => absurd hab (by simp), ?_⟩, fun _ => rfl, by simp⟩
      rintro ⟨d, hd, rfl⟩
      exact (hf d hd rfl).elim
    | some d =>
      obtain ⟨hdm, hdeq⟩ := get_detalle_spec hf
      refine ⟨⟨fun _ => ⟨d, hdm, hdeq⟩, fun _ => rfl⟩, ?_, ?_⟩
      · intro hab
        exact absurd ⟨d, hdm, hdeq⟩ hab
      · intro _ x hx
        have hx' : x ∈ db.detalles.filter (fun o => o.id != did) := hx
        have := (List.mem_filter.mp hx').2
        simpa using this
  · intro db pid
    unfold delete_producto
    cases hf : get_producto db pid with
    | none =>
      rw [get_producto_none_iff] at hf
      refine ⟨fun _ => rfl, ?_, ?_⟩
      · rintro ⟨p, hp, rfl⟩ _
        exact (hf p hp rfl).elim
      · rintro ⟨p, hp, rfl⟩ _
        exact (hf p hp rfl).elim
    | some p =>
      obtain ⟨hpm, hpeq⟩ := get_producto_spec hf
      refine ⟨?_, ?_, ?_⟩
      · intro hab
        exact absurd ⟨p, hpm, hpeq⟩ hab
      · intro _ hnoref
        have hany : db.detalles.any (fun d => d.producto_id == pid) = false := by
          rw [List.any_eq_false]
          intro d hd
          simp [hnoref d hd]
        rw [if_neg (by simp [hany])]
        refine ⟨_, rfl, ?_⟩
        intro x hx
        have := (List.mem_filter.mp hx).2
        simpa using this
      · rintro _ ⟨d, hd, hdp⟩
        have hany : db.detalles.any (fun d => d.producto_id == pid) = true :=
          List.any_eq_true.mpr ⟨d, hd, by simp [hdp]⟩
        rw [if_pos hany]

/-- Testigo de C6: borrado de un cliente inexistente sobre `dbW`. -/
theorem C6_delete_not_found_indication_witness :
    delete_cliente dbW 99 = (false, dbW) :=
  (C6_delete_not_found_indication.1 dbW 99).2.1 (by decide)

/-- C7: borrar un cliente existente elimina todas sus ventas y,
transitivamente, los detalles de esas ventas, conservando los demás
registros; borrar una venta existente elimina sus detalles y conserva los
demás; en ambos casos la tabla de productos queda intacta. -/
theorem C7_cascade_delete :
    (∀ db cid, (∃ c ∈ db.clientes, c.id = cid) →
      (delete_cliente db cid).1 = true ∧
      (∀ v ∈ (delete_cliente db cid).2.ventas, v.cliente_id ≠ cid) ∧
      (∀ v ∈ db.ventas, v.cliente_id ≠ cid → v ∈ (delete_cliente db cid).2.ventas) ∧
      (∀ d ∈ (delete_cliente db cid).2.detalles, d ∈ db.detalles ∧
        ¬ ∃ v ∈ db.ventas, v.cliente_id = cid ∧ v.id = d.venta_id) ∧
      (∀ d ∈ db.detalles, (¬ ∃ v ∈ db.ventas, v.cliente_id = cid ∧ v.id = d.venta_id) →
        d ∈ (delete_cliente db cid).2.detalles) ∧
      (delete_cliente db cid).2.productos = db.productos) ∧
    (∀ db vid, (∃ v ∈ db.ventas, v.id = vid) →
      (delete_venta db vid).1 = true ∧
      (∀ v ∈ (delete_venta db vid).2.ventas, v.id ≠ vid) ∧
      (∀ v ∈ db.ventas, v.id ≠ vid → v ∈ (delete_venta db vid).2.ventas) ∧
      (∀ d ∈ (delete_venta db vid).2.detalles, d ∈ db.detalles ∧ d.venta_id ≠ vid) ∧
      (∀ d ∈ db.detalles, d.venta_id ≠ vid → d ∈ (delete_venta db vid).2.detalles) ∧
      (delete_venta db vid).2.productos = db.productos) := by
  constructor
  · intro db cid hex
    unfold delete_cliente
    cases hf : get_cliente db cid with
    | none =>
      rw [get_cliente_none_iff] at hf
      obtain ⟨c, hc, hceq⟩ := hex
      exact (hf c hc hceq).elim
    | some c =>
      refine ⟨rfl, ?_, ?_, ?_, ?_, rfl⟩
      · intro v hv
        have := (List.mem_filter.mp hv).2
        simpa using this
      · intro v hv hne
        exact List.mem_filter.mpr ⟨hv, by simpa using hne⟩
      · intro d hd
        have hmem := List.mem_of_mem_filter hd
        have hall := (List.mem_filter.mp hd).2
        rw [List.all_eq_true] at hall
        refine ⟨hmem, ?_⟩
        rintro ⟨v, hv, hvc, hvid⟩
        have hvf : v ∈ db.ventas.filter (fun v => v.cliente_id == cid) :=
          List.mem_filter.mpr ⟨hv, by simpa using hvc⟩
        have := hall v hvf
        simp only [bne_iff_ne, ne_eq] at this
        exact this hvid
      · intro d hd hno
        refine List.mem_filter.mpr ⟨hd, ?_⟩
        rw [List.all_eq_true]
        intro v hvf
        obtain ⟨hv, hvc⟩ := List.mem_filter.mp hvf
        simp only [bne_iff_ne, ne_eq]
        intro hvid
        exact hno ⟨v, hv, by simpa using hvc, hvid⟩
  · intro db vid hex
    unfold delete_venta
    cases hf : get_venta db vid with
    | none =>
      rw [get_venta_none_iff] at hf
      obtain ⟨v, hv, hveq⟩ := hex
      exact (hf v hv hveq).elim
    | some v =>
      refine ⟨rfl, ?_, ?_, ?_, ?_, rfl⟩
      · intro w hw
        have := (List.mem_filter.mp hw).2
        simpa using this
      · intro w hw hne
        exact List.mem_filter.mpr ⟨hw, by simpa using hne⟩
      · intro d hd
        refine ⟨List.mem_of_mem_filter hd, ?_⟩
        have := (List.mem_filter.mp hd).2
        simpa using this
      · intro d hd hne
        exact List.mem_filter.mpr ⟨hd, by simpa using hne⟩

/-- Testigo de C7: borrado en cascada del cliente 1 y de la venta 1 de `dbW`. -/
theorem C7_cascade_delete_witness :
    ((delete_cliente dbW 1).1 = true ∧ (delete_cliente dbW 1).2.productos = dbW.productos) ∧
    ((delete_venta dbW 1).1 = true ∧ (delete_venta dbW 1).2.productos = dbW.productos) := by
  have h1 := C7_cascade_delete.1 dbW 1 (by decide)
  have h2 := C7_cascade_delete.2 dbW 1 (by decide)
  exact ⟨⟨h1.1, h1.2.2.2.2.2⟩, ⟨h2.1, h2.2.2.2.2.2⟩⟩

/-- C8: crear una venta con `cliente_id` inexistente, o un detalle con
`producto_id` o `venta_id` inexistentes, falla con un error de violación de
restricción y no persiste ningún estado parcial (ejecutada como transacción,
la operación deja el almacén idéntico). -/
theorem C8_fk_violation_no_partial_state :
    (∀ db data, (∀ c ∈ db.clientes, c.id ≠ data.cliente_id) →
      create_venta db data
        = Except.error "FOREIGN KEY constraint failed: ventas.cliente_id" ∧
      applyOp db (Op.crearVenta data) = db) ∧
    (∀ db data, (∃ det ∈ data.detalles, ∀ p ∈ db.productos, p.id ≠ det.producto_id) →
      (∃ e, create_venta db data = Except.error e) ∧ applyOp db (Op.crearVenta data) = db) ∧
    (∀ db data, (∀ p ∈ db.productos, p.id ≠ data.producto_id) →
      create_detalle db data
        = Except.error "FOREIGN KEY constraint failed: detalles_ventas.producto_id" ∧
      applyOp db (Op.crearDetalle data) = db) ∧
    (∀ db data, (∀ v ∈ db.ventas, v.id ≠ data.venta_id) →
      (∃ e, create_detalle db data = Except.error e) ∧
      applyOp db (Op.crearDetalle data) = db) := by
  refine ⟨?_, ?_, ?_, ?_⟩
  · intro db data h
    have hnone : get_cliente db data.cliente_id = none := get_cliente_none_iff.mpr h
    have herr : create_venta db data
        = Except.error "FOREIGN KEY constraint failed: ventas.cliente_id" := by
      unfold create_venta
      rw [hnone]
      rfl
    exact ⟨herr, by simp [applyOp, herr]⟩
  · rintro db data ⟨det, hdet, hp⟩
    have hpn : get_producto db det.producto_id = none := get_producto_none_iff.mpr hp
    have hany : data.detalles.any (fun det => (get_producto db det.producto_id).isNone) = true :=
      List.any_eq_true.mpr ⟨det, hdet, by rw [hpn]; rfl⟩
    have herr : ∃ e, create_venta db data = Except.error e := by
      unfold create_venta
      by_cases hc : (get_cliente db data.cliente_id).isNone = true
      · rw [if_pos hc]
        exact ⟨_, rfl⟩
      · rw [if_neg hc, if_pos hany]
        exact ⟨_, rfl⟩
    obtain ⟨e, he⟩ := herr
    exact ⟨⟨e, he⟩, by simp [applyOp, he]⟩
  · intro db data h
    have hnone : get_producto db data.producto_id = none := get_producto_none_iff.mpr h
    have herr : create_detalle db data
        = Except.error "FOREIGN KEY constraint failed: detalles_ventas.producto_id" := by
      unfold create_detalle
      rw [hnone]
      rfl
    exact ⟨herr, by simp [applyOp, herr]⟩
  · intro db data h
    have hnone : get_venta db data.venta_id = none := get_venta_none_iff.mpr h
    have herr : ∃ e, create_detalle db data = Except.error e := by
      unfold create_detalle
      by_cases hc : (get_producto db data.producto_id).isNone = true
      · rw [if_pos hc]
        exact ⟨_, rfl⟩
      · rw [if_neg hc, if_pos (show (get_venta db data.venta_id).isNone = true by rw [hnone]; rfl)]
        exact ⟨_, rfl⟩
    obtain ⟨e, he⟩ := herr
    exact ⟨⟨e, he⟩, by simp [applyOp, he]⟩

/-- Testigo de C8: creación de venta con cliente 99 inexistente sobre `dbW`. -/
theorem C8_fk_violation_no_partial_state_witness :
    create_venta dbW { cliente_id := 99, detalles := [] }
      = Except.error "FOREIGN KEY constraint failed: ventas.cliente_id" ∧
    applyOp dbW (Op.crearVenta { cliente_id := 99, detalles := [] }) = dbW :=
  C8_fk_violation_no_partial_state.1 dbW { cliente_id := 99, detalles := [] } (by decide)

/-- C9: crear una venta con lista vacía de detalles para un cliente
existente tiene éxito (no se rechaza), produce una venta con `total = 0` y
no añade ningún detalle; en un almacén bien formado la nueva venta no posee
ningún detalle. -/
theorem C9_empty_sale (db : DB) (cid : Nat) (c : Cliente)
    (hget : get_cliente db cid = some c) (hwf : WF db) :
    ∃ v db', create_venta db { cliente_id := cid, detalles := [] } = Except.ok (v, db') ∧
      v.total = 0 ∧ db'.detalles = db.detalles ∧ ventaDetalles db' v.id = [] ∧
      v ∈ db'.ventas ∧ v.cliente_id = cid := by
  obtain ⟨h1, h2, h3, h4, h5⟩ := hwf
  unfold create_venta
  simp only [hget, Option.isNone_some, Bool.false_eq_true, if_false, List.any_nil,
    List.map_nil, List.sum_nil, mkDetalles, List.append_nil, List.length_nil, Nat.add_zero]
  refine ⟨_, _, rfl, rfl, rfl, ?_, ?_, rfl⟩
  · show List.filter (fun d => d.venta_id == db.nextVentaId) db.detalles = []
    rw [List.filter_eq_nil_iff]
    intro d hd
    have hvm := h5 d hd
    rw [List.mem_map] at hvm
    obtain ⟨vv, hvv, hvveq⟩ := hvm
    have := h3 _ (List.mem_map_of_mem _ hvv)
    simp only [beq_iff_eq]
    omega
  · show _ ∈ db.ventas ++ [_]
    simp

/-- Testigo de C9: venta vacía para el cliente 1 de `dbW`. -/
theorem C9_empty_sale_witness :
    ∃ v db', create_venta dbW { cliente_id := 1, detalles := [] } = Except.ok (v, db') ∧
      v.total = 0 ∧ db'.detalles = dbW.detalles ∧ ventaDetalles db' v.id = [] ∧
      v ∈ db'.ventas ∧ v.cliente_id = 1 :=
  C9_empty_sale dbW 1 cC5 rfl (by decide)

/-- C10: la actualización parcial de la cabecera de una venta solo puede
cambiar `cliente_id` (el esquema de entrada no expone `total`), así que el
`total` almacenado de la venta actualizada, y el de todas las demás, queda
igual que antes; los detalles tampoco cambian. -/
theorem C10_header_update_preserves_total (db : DB) (vid : Nat) (u : VentaUpdate)
    (v v' : Venta) (db' : DB) (hget : get_venta db vid = some v)
    (h : update_venta db vid u = Except.ok (some (v', db'))) :
    v'.total = v.total ∧ v'.id = v.id ∧
    db'.ventas.map (fun w => (w.id, w.total)) = db.ventas.map (fun w => (w.id, w.total)) ∧
    db'.detalles = db.detalles := by
  simp only [update_venta, hget] at h
  split at h
  · simp at h
  · simp only [Except.ok.injEq, Option.some.injEq, Prod.mk.injEq] at h
    obtain ⟨hv', hdb⟩ := h
    subst hv'
    subst hdb
    refine ⟨rfl, rfl, ?_, rfl⟩
    rw [List.map_map]
    apply List.map_congr_left
    intro w _
    by_cases hw : w.id = vid <;> simp [Function.comp, hw, applyVentaUpdate]

/-- Testigo de C10: reasignación de la venta 1 de `dbW` al cliente 2. -/
theorem C10_header_update_preserves_total_witness :
    vC10'.total = ({ id := 1, cliente_id := 1, total := 180 } : Venta).total ∧
    vC10'.total = 180 := by
  have h := C10_header_update_preserves_total dbW 1 { cliente_id := some 2 }
    { id := 1, cliente_id := 1, total := 180 } vC10' dbC10' rfl rfl
  exact ⟨h.1, rfl⟩

end Ventas
